import Mathlib

/-!
Verification of the sc-theater synchronized video playback server.

This development shallowly embeds the server-side logic of the repository:
the master playback-state machine and its effective-time model
(src/lib/state-manager.js, class StateManager), session authentication
(src/lib/state-manager.js, class AuthManager), the WebSocket message
dispatch (src/lib/websocket-server.js) and the HLS path validation
(src/lib/video-service.js).  JavaScript numbers are modelled as rationals,
JavaScript `undefined`/`null` fields as `Option`, and wall-clock reads of
`Date.now()` as an explicit `now` argument.
-/

namespace Theater

/-! ## Constants (src/lib/state-manager.js lines 2-14) -/

def DEFAULT_SYNC_INTERVAL : ℚ := 1000
def MIN_SYNC_INTERVAL : ℚ := 1000
def MAX_SYNC_INTERVAL : ℚ := 1000
def DRIFT_THRESHOLD_LOW : ℚ := 1/2
def DRIFT_THRESHOLD_HIGH : ℚ := 3/2
def SYNC_INTERVAL_ADJUST_STEP : ℚ := 1000
def MIN_PLAYBACK_RATE : ℚ := 9/10
def MAX_PLAYBACK_RATE : ℚ := 1
def PLAYBACK_RATE_ADJUST_STEP : ℚ := 1/100
def CLIENT_BEHIND_THRESHOLD : ℚ := -1

/-! ## Master state (src/lib/state-manager.js lines 19-25)

The spec calls `currentTime` the anchor time (`anchorTime`) and
`lastUpdateTime` the anchor wall-clock instant (`anchorWall`, in ms). -/

structure MasterState where
  currentVideo : Option String
  currentTime : ℚ
  isPlaying : Bool
  lastUpdateTime : ℚ
  playbackRate : ℚ
deriving Repr, DecidableEq

/-- Embeds the StateManager constructor state (lines 19-25); `lastUpdateTime`
is the wall clock at construction, passed in as `startWall`. -/
def initialMasterState (startWall : ℚ) : MasterState :=
  { currentVideo := none
    currentTime := 0
    isPlaying := false
    lastUpdateTime := startWall
    playbackRate := MAX_PLAYBACK_RATE }

/-- Embeds StateManager.getEffectiveTime (src/lib/state-manager.js lines
210-218).  `now` is the value of `Date.now()` in milliseconds. -/
def getEffectiveTime (s : MasterState) (now : ℚ) : ℚ :=
  let actualCurrentTime :=
    s.currentTime +
      (if s.isPlaying then (now - s.lastUpdateTime) / 1000 * s.playbackRate else 0)
  max 0 actualCurrentTime

/-- C1: for every master state and wall-clock instant, the effective-time
function returns max(0, anchorTime + (isPlaying ? (now - anchorWall)/1000 * rate : 0)),
the elapsed wall time being converted from milliseconds to seconds; in
particular for every state and every now at or after the anchor instant the
result is nonnegative (in fact it is nonnegative for every now). -/
theorem C1_effective_time_formula (s : MasterState) (now : ℚ) :
    getEffectiveTime s now =
      max 0 (s.currentTime +
        (if s.isPlaying then (now - s.lastUpdateTime) / 1000 * s.playbackRate else 0)) ∧
    (s.lastUpdateTime ≤ now → 0 ≤ getEffectiveTime s now) := by
  refine ⟨rfl, fun _ => ?_⟩
  exact le_max_left 0 _

def c1State : MasterState :=
  { currentVideo := none
    currentTime := 3
    isPlaying := true
    lastUpdateTime := 2
    playbackRate := 1 }

/-- Witness for C1 at a concrete playing state and instant. -/
theorem C1_witness :
    c1State.lastUpdateTime ≤ (5 : ℚ) ∧ 0 ≤ getEffectiveTime c1State 5 :=
  ⟨by norm_num [c1State], (C1_effective_time_formula c1State 5).2 (by norm_num [c1State])⟩

/-! ## setMasterState (src/lib/state-manager.js lines 149-207)

The `newState` argument of setMasterState is a partial update object; a
field equal to `none` models a JavaScript field that is `undefined`
(absent).  The method mutates `this.masterState` in steps; the embedding
threads the state through the same four steps. -/

structure NewStateMsg where
  currentVideo : Option String
  isPlaying : Option Bool
  seekTime : Option ℚ
deriving Repr, DecidableEq

/-- Models the JavaScript strict inequality
`newState.currentVideo !== masterState.currentVideo` where `none` on the
left is `undefined` and `none` on the right is `null`; values of distinct
JavaScript types are always strictly unequal. -/
def jsStrictNeVideo (nsv : Option String) (cur : Option String) : Bool :=
  match nsv, cur with
  | some a, some b => a != b
  | _, _ => true

/-- Output of one mutation step of setMasterState: the new state, whether
`stateChanged` was set, and whether startRateAdjustment /
stopRateAdjustment were called in this step. -/
structure StepOut where
  state : MasterState
  changed : Bool
  started : Bool
  stopped : Bool
deriving Repr, DecidableEq

/-- Embeds lines 154-161 of setMasterState: while playing, before a pause
or a video change, fold the accrued effective time into `currentTime`. -/
def smCatchUp (s : MasterState) (ns : NewStateMsg) (now : ℚ) : StepOut :=
  if s.isPlaying = true ∧
      (ns.isPlaying = some false ∨ jsStrictNeVideo ns.currentVideo s.currentVideo = true) then
    let effectiveTime := getEffectiveTime s now
    if s.currentTime = effectiveTime then
      { state := s, changed := false, started := false, stopped := false }
    else
      { state := { s with currentTime := effectiveTime },
        changed := true, started := false, stopped := false }
  else
    { state := s, changed := false, started := false, stopped := false }

/-- Embeds lines 164-175 of setMasterState: apply a video change. -/
def smVideoChange (s : MasterState) (ns : NewStateMsg) (now : ℚ) : StepOut :=
  match ns.currentVideo with
  | some v =>
    if jsStrictNeVideo (some v) s.currentVideo = true then
      { state := { s with currentVideo := some v, currentTime := 0,
                          isPlaying := false, playbackRate := MAX_PLAYBACK_RATE,
                          lastUpdateTime := now },
        changed := true, started := false, stopped := true }
    else
      { state := s, changed := false, started := false, stopped := false }
  | none => { state := s, changed := false, started := false, stopped := false }

/-- Embeds lines 176-193 of setMasterState: apply a play/pause flip; a
pause also resets the playback rate to normal. -/
def smPlayingChange (s : MasterState) (ns : NewStateMsg) (now : ℚ) : StepOut :=
  match ns.isPlaying with
  | some p =>
    if p = s.isPlaying then
      { state := s, changed := false, started := false, stopped := false }
    else if p = true then
      { state := { s with isPlaying := true, lastUpdateTime := now },
        changed := true, started := true, stopped := false }
    else
      { state := { s with isPlaying := false, lastUpdateTime := now,
                          playbackRate := MAX_PLAYBACK_RATE },
        changed := true, started := false, stopped := true }
  | none => { state := s, changed := false, started := false, stopped := false }

/-- Embeds lines 194-199 of setMasterState: apply a seek, clamped at 0. -/
def smSeek (s : MasterState) (ns : NewStateMsg) (now : ℚ) : StepOut :=
  match ns.seekTime with
  | some t =>
    { state := { s with currentTime := max 0 t, lastUpdateTime := now },
      changed := true, started := false, stopped := false }
  | none => { state := s, changed := false, started := false, stopped := false }

/-- Result of StateManager.setMasterState: the new master state, the
`stateChanged` return value, whether a broadcast was issued (line 202:
exactly when the state changed), and whether the rate-adjustment loop was
stopped or started by this call. -/
structure SetStateResult where
  state : MasterState
  stateChanged : Bool
  broadcast : Bool
  stoppedRateLoop : Bool
  startedRateLoop : Bool
deriving Repr, DecidableEq

/-- Embeds StateManager.setMasterState (src/lib/state-manager.js lines
149-207), threading the masterState through the four mutation steps in
source order. -/
def setMasterState (s : MasterState) (ns : NewStateMsg) (now : ℚ) : SetStateResult :=
  let r1 := smCatchUp s ns now
  let r2 := smVideoChange r1.state ns now
  let r3 := smPlayingChange r2.state ns now
  let r4 := smSeek r3.state ns now
  let changed := r1.changed || r2.changed || r3.changed || r4.changed
  { state := r4.state
    stateChanged := changed
    broadcast := changed
    stoppedRateLoop := r2.stopped || r3.stopped
    startedRateLoop := r3.started }

/-! ## Global rate controller (src/lib/state-manager.js lines 221-275)

The controller reads each connected client record; only the `lastDrift`
field matters, so a tick is parametrized by the list of `lastDrift` values
of the connected clients (`none` models `undefined`/`null`). -/

/-- Count of clients with a drift sample: `totalClientsWithData`
in adjustPlaybackRate (line 231). -/
def countSome : List (Option ℚ) → ℕ
  | [] => 0
  | none :: rest => countSome rest
  | some _ :: rest => countSome rest + 1

/-- Count of clients behind the server: `clientsBehind` (line 234). -/
def countBehind : List (Option ℚ) → ℕ
  | [] => 0
  | none :: rest => countBehind rest
  | some q :: rest =>
    (if q < CLIENT_BEHIND_THRESHOLD then 1 else 0) + countBehind rest

/-- Count of clients ahead of the server: `clientsAhead` (line 236);
the source counts a client as ahead only in the else-branch of the
behind test. -/
def countAhead : List (Option ℚ) → ℕ
  | [] => 0
  | none :: rest => countAhead rest
  | some q :: rest =>
    (if ¬ q < CLIENT_BEHIND_THRESHOLD ∧ DRIFT_THRESHOLD_LOW < q then 1 else 0) + countAhead rest

/-- Embeds StateManager.adjustPlaybackRate (src/lib/state-manager.js lines
221-275).  `drifts` is the list of `lastDrift` fields of the connected
clients, so `drifts.length` is `connectedClients.size`.  The second
component is whether a broadcast was issued.  In the rate-changing branch
the source first assigns the new rate, then `currentTime :=
getEffectiveTime()` (which therefore reads the NEW rate and the OLD
`lastUpdateTime`), then `lastUpdateTime := now`.  In the no-drift-data
reset branch the source assigns only the rate and `lastUpdateTime`. -/
def adjustPlaybackRate (s : MasterState) (drifts : List (Option ℚ)) (now : ℚ) :
    MasterState × Bool :=
  if ¬ s.isPlaying = true ∨ drifts.length = 0 then (s, false)
  else
    let totalClientsWithData := countSome drifts
    if totalClientsWithData = 0 then
      if s.playbackRate < MAX_PLAYBACK_RATE then
        ({ s with playbackRate := MAX_PLAYBACK_RATE, lastUpdateTime := now }, true)
      else (s, false)
    else
      let behindShare : ℚ := (countBehind drifts : ℚ) / (totalClientsWithData : ℚ)
      if behindShare > 1/4 ∧ s.playbackRate > MIN_PLAYBACK_RATE then
        let newRate := max MIN_PLAYBACK_RATE (s.playbackRate - PLAYBACK_RATE_ADJUST_STEP)
        let s1 := { s with playbackRate := newRate }
        ({ s1 with currentTime := getEffectiveTime s1 now, lastUpdateTime := now }, true)
      else if (behindShare < 1/10 ∨ countBehind drifts < countAhead drifts) ∧
          s.playbackRate < MAX_PLAYBACK_RATE then
        let newRate := min MAX_PLAYBACK_RATE (s.playbackRate + PLAYBACK_RATE_ADJUST_STEP)
        let s1 := { s with playbackRate := newRate }
        ({ s1 with currentTime := getEffectiveTime s1 now, lastUpdateTime := now }, true)
      else (s, false)

/-! ## Per-client sync interval adaptation
(src/lib/state-manager.js lines 293-318) -/

/-- Embeds StateManager.adjustClientSyncInterval.  Only the master
`isPlaying` flag, the client `lastDrift` and the client
`currentSyncInterval` are read; the returned pair is the resulting
interval and the boolean return value (whether the interval changed). -/
def adjustClientSyncInterval (masterPlaying : Bool) (lastDrift : Option ℚ)
    (cur : ℚ) : ℚ × Bool :=
  if ¬ masterPlaying = true ∨ lastDrift = none then (cur, false)
  else
    let drift := lastDrift.getD 0
    let step1 : ℚ × Bool :=
      if |drift| > DRIFT_THRESHOLD_HIGH ∧ cur > MIN_SYNC_INTERVAL then
        (max MIN_SYNC_INTERVAL (cur - SYNC_INTERVAL_ADJUST_STEP), true)
      else if |drift| < DRIFT_THRESHOLD_LOW ∧ cur < MAX_SYNC_INTERVAL then
        (min MAX_SYNC_INTERVAL (cur + SYNC_INTERVAL_ADJUST_STEP), true)
      else (cur, false)
    if step1.2 = true ∧ ¬ step1.1 = cur then (step1.1, true) else (cur, false)

/-! ## AuthManager (src/lib/state-manager.js, class AuthManager) -/

structure SessionData where
  role : String
  name : String
  expiry : ℚ
deriving Repr, DecidableEq

structure AuthConfig where
  adminPassword : String
  viewerPassword : String
  sessionExpiry : ℚ
deriving Repr, DecidableEq

def adminRole : String := "admin"
def viewerRole : String := "viewer"

/-- Embeds AuthManager.validatePassword (lines 340-348). -/
def validatePassword (cfg : AuthConfig) (password : String) : Option String :=
  if password = cfg.adminPassword then some adminRole
  else if password = cfg.viewerPassword then some viewerRole
  else none

/-- Embeds AuthManager.validateSession (lines 364-383).  The session store
is an association list keyed by token.  Returns the looked-up session (or
`none`) together with the store after the lazy deletion of an expired
entry.  The `token = ""` case models the JavaScript falsiness test
`!token`. -/
def validateSession (sessions : List (String × SessionData)) (token : String)
    (now : ℚ) : Option SessionData × List (String × SessionData) :=
  if token = "" then (none, sessions)
  else
    match sessions.lookup token with
    | none => (none, sessions)
    | some sess =>
      if sess.expiry < now then
        (none, sessions.filter (fun p => p.1 != token))
      else (some sess, sessions)

/-- Embeds AuthManager.createSession (lines 355-362); the random token is
passed in as `freshToken` and the expiry is `now + sessionExpiry`. -/
def createSession (cfg : AuthConfig) (sessions : List (String × SessionData))
    (role name : String) (now : ℚ) (freshToken : String) :
    List (String × SessionData) :=
  (freshToken, { role := role, name := name, expiry := now + cfg.sessionExpiry }) :: sessions

/-! ## JSON values and JavaScript coercions

Inbound WebSocket frames are parsed JSON; a field holds one of these
values (objects and arrays do not occur in the fields the embedded
handlers read; they would behave like `undef` under the coercions used). -/

inductive JsVal
  | num (q : ℚ)
  | str (s : String)
  | boolVal (b : Bool)
  | nullVal
  | undef
deriving Repr, DecidableEq

/-- Decimal digit run parser used by the parseFloat model: accumulates the
value, counts the digits consumed and returns the rest. -/
def parseDigits : ℕ → ℕ → List Char → ℕ × ℕ × List Char
  | acc, cnt, [] => (acc, cnt, [])
  | acc, cnt, c :: cs =>
    if c.isDigit then parseDigits (10 * acc + (c.toNat - 48)) (cnt + 1) cs
    else (acc, cnt, c :: cs)

def isSpaceChar (c : Char) : Bool :=
  c = ' ' || c = '\t' || c = '\n' || c = '\r'

def isMinusChar (c : Char) : Bool := c = '-'

def isPlusChar (c : Char) : Bool := c = '+'

def isDotChar (c : Char) : Bool := c = '.'

/-- Models JavaScript `parseFloat` on the decimal fragment
`[+-]?digits[.digits]` after leading whitespace, returning `none` for NaN;
trailing garbage is ignored as in JavaScript.  (Exponent notation and the
Infinity literal are outside the fragment exercised by the theorems.) -/
def jsParseFloatChars (l : List Char) : Option ℚ :=
  let l1 := l.dropWhile isSpaceChar
  let signed : ℚ × List Char :=
    match l1 with
    | c :: rest =>
      if isMinusChar c then (-1, rest)
      else if isPlusChar c then (1, rest) else (1, l1)
    | [] => (1, l1)
  let ipart := parseDigits 0 0 signed.2
  match ipart.2.2 with
  | c :: rest =>
    if isDotChar c then
      let fpart := parseDigits 0 0 rest
      if ipart.2.1 = 0 ∧ fpart.2.1 = 0 then none
      else some (signed.1 * ((ipart.1 : ℚ) + (fpart.1 : ℚ) / (10 : ℚ) ^ fpart.2.1))
    else if ipart.2.1 = 0 then none else some (signed.1 * (ipart.1 : ℚ))
  | [] => if ipart.2.1 = 0 then none else some (signed.1 * (ipart.1 : ℚ))

/-- Models JavaScript `parseFloat` applied to a JSON field value, as in
`parseFloat(parsedMessage.time)` (src/lib/websocket-server.js line 197):
numbers pass through, strings are parsed, and `true`/`false`/`null`/absent
give NaN (`none`). -/
def jsParseFloat : JsVal → Option ℚ
  | JsVal.num q => some q
  | JsVal.str s => jsParseFloatChars s.toList
  | JsVal.boolVal _ => none
  | JsVal.nullVal => none
  | JsVal.undef => none

/-! ## VideoService.isValidVideoFilename (src/lib/video-service.js lines 63-75) -/

def hlsColon : String := "hls:"

/-- Character class of the stream-name test `/^[a-zA-Z0-9_-]+$/`. -/
def validStreamChar (c : Char) : Bool :=
  c.isAlphanum || c = '_' || c = '-'

def headIsDot : List Char → Bool
  | [] => false
  | c :: _ => isDotChar c

/-- Substring test `includes(\x7b..\x7d)` restricted to the two-dot pattern:
true iff the character list has two consecutive dots. -/
def hasDotDot : List Char → Bool
  | [] => false
  | c :: rest => (isDotChar c && headIsDot rest) || hasDotDot rest

/-- Embeds VideoService.isValidVideoFilename: `false` for any non-string
or falsy value, otherwise requires the `hls:` form with a nonempty
directory name over `[a-zA-Z0-9_-]` and no `..`. -/
def isValidVideoFilename : JsVal → Bool
  | JsVal.str s =>
    if s = "" then false
    else if s.startsWith hlsColon then
      let dirName := s.drop 4
      dirName != "" && (dirName.toList.all validStreamChar && !hasDotDot dirName.toList)
    else false
  | _ => false

/-! ## WebSocket message dispatch (src/lib/websocket-server.js) -/

inductive ServerReply
  | errorMsg (m : String)
  | authFail (m : String)
  | authSuccess (role : String) (name : String) (token : String)
deriving Repr, DecidableEq

def errInvalidSeek : String := "Invalid seek time"
def errInvalidVideo : String := "Invalid video filename format"
def errAlreadyAuthed : String := "Already authenticated"
def authFailToken : String := "Invalid or expired session token"
def authFailPassword : String := "Invalid password"
def authFailRequired : String := "Authentication required"

/-- A SetStateResult for a request that never reaches setMasterState. -/
def noStateChange (s : MasterState) : SetStateResult :=
  { state := s, stateChanged := false, broadcast := false,
    stoppedRateLoop := false, startedRateLoop := false }

/-- Result of handling one operator message: the setMasterState outcome
(or `noStateChange` when validation rejected the message) and the direct
replies sent to the requesting socket. -/
structure DispatchResult where
  res : SetStateResult
  replies : List ServerReply
deriving Repr, DecidableEq

/-- Embeds the `case 'seek'` arm of WebSocketServer.handleMessage
(src/lib/websocket-server.js lines 196-204): `parseFloat` the time, accept
iff not NaN and nonnegative, else reply an error frame. -/
def handleSeekMsg (s : MasterState) (time : JsVal) (now : ℚ) : DispatchResult :=
  match jsParseFloat time with
  | some seekTime =>
    if 0 ≤ seekTime then
      let ns : NewStateMsg :=
        { currentVideo := none, isPlaying := none, seekTime := some seekTime }
      { res := setMasterState s ns now, replies := [] }
    else
      { res := noStateChange s, replies := [ServerReply.errorMsg errInvalidSeek] }
  | none =>
    { res := noStateChange s, replies := [ServerReply.errorMsg errInvalidSeek] }

/-- Embeds the `case 'changeVideo'` arm of WebSocketServer.handleMessage
(src/lib/websocket-server.js lines 205-216): validate the reference via
isValidVideoFilename, else reply an error frame. -/
def handleChangeVideoMsg (s : MasterState) (video : JsVal) (now : ℚ) : DispatchResult :=
  if isValidVideoFilename video = true then
    match video with
    | JsVal.str v =>
      let ns : NewStateMsg :=
        { currentVideo := some v, isPlaying := none, seekTime := none }
      { res := setMasterState s ns now, replies := [] }
    | _ => { res := noStateChange s, replies := [] }
  else
    { res := noStateChange s, replies := [ServerReply.errorMsg errInvalidVideo] }

/-! ## Authentication dispatch (src/lib/websocket-server.js lines 90-164) -/

/-- An inbound `auth` frame; `none` fields are absent. -/
structure AuthFrame where
  token : Option String
  password : Option String
  name : Option String
deriving Repr, DecidableEq

/-- JavaScript truthiness of an optional string field: absent, null and
the empty string are falsy. -/
def jsTruthyStr : Option String → Bool
  | some s => s != ""
  | none => false

/-- Models the name normalization at lines 116-117:
`name && typeof name === 'string' ? name.trim().substring(0, 30) : 'Anonymous'`. -/
def anonymousName : String := "Anonymous"

def chooseName : Option String → String
  | some n => if n = "" then anonymousName else (n.trim.take 30)
  | none => anonymousName

/-- Outcome of handling one `auth` frame: replies sent to the socket,
whether the server tore the connection down in this handler, the session
store afterwards, and the client registered by addClient (role, name,
token), if any. -/
structure AuthStepResult where
  replies : List ServerReply
  terminated : Bool
  sessions : List (String × SessionData)
  clientAdded : Option (String × String × String)
deriving Repr, DecidableEq

/-- Embeds the `auth` branch of WebSocketServer.handleMessage
(src/lib/websocket-server.js lines 90-164).  `alreadyAuthed` is whether
`stateManager.getClient(ws)` found a record; `freshToken` stands for the
random token createSession would mint.  Note the source never calls
`ws.terminate()`/`ws.close()` in this branch, so `terminated` is `false`
on every path. -/
def handleAuthMessage (cfg : AuthConfig) (sessions : List (String × SessionData))
    (alreadyAuthed : Bool) (frame : AuthFrame) (now : ℚ) (freshToken : String) :
    AuthStepResult :=
  if alreadyAuthed then
    { replies := [ServerReply.errorMsg errAlreadyAuthed], terminated := false,
      sessions := sessions, clientAdded := none }
  else if jsTruthyStr frame.token then
    let tok := frame.token.getD ""
    let vres := validateSession sessions tok now
    match vres.1 with
    | some sess =>
      { replies := [ServerReply.authSuccess sess.role sess.name tok],
        terminated := false, sessions := vres.2,
        clientAdded := some (sess.role, sess.name, tok) }
    | none =>
      { replies := [ServerReply.authFail authFailToken], terminated := false,
        sessions := vres.2, clientAdded := none }
  else if jsTruthyStr frame.password then
    match validatePassword cfg (frame.password.getD "") with
    | some role =>
      let name := chooseName frame.name
      { replies := [ServerReply.authSuccess role name freshToken],
        terminated := false,
        sessions := createSession cfg sessions role name now freshToken,
        clientAdded := some (role, name, freshToken) }
    | none =>
      { replies := [ServerReply.authFail authFailPassword], terminated := false,
        sessions := sessions, clientAdded := none }
  else
    { replies := [ServerReply.authFail authFailRequired], terminated := false,
      sessions := sessions, clientAdded := none }

/-! ## HLS request handling (src/lib/video-service.js lines 78-98)

Filesystem paths are modelled at segment granularity: Node `path.join`
appends segments and `path.normalize` resolves `.` and `..` segments; the
processed-directory root is an abstract absolute segment list `P`.  The
file-serving tail (stat, content type, streaming) is irrelevant to the
confinement claim and is represented by the `serveFile` outcome carrying
the resolved path. -/

def dotSeg : String := "."
def dotDotSeg : String := ".."

/-- Character class of the per-part test `/^[a-zA-Z0-9_.-]+$/`. -/
def validPartChar (c : Char) : Bool :=
  c.isAlphanum || c = '_' || c = '.' || c = '-'

/-- Per-part validation at line 86: the part matches the character class
(nonempty) and does not contain `..`. -/
def validHlsPart (p : String) : Bool :=
  p != "" && (p.toList.all validPartChar && !hasDotDot p.toList)

/-- One step of Node `path.normalize` over a segment: `.` is dropped,
`..` pops the previous segment (at an absolute root it vanishes), any
other segment is appended. -/
def normStep (acc : List String) (seg : String) : List String :=
  if seg = dotSeg then acc
  else if seg = dotDotSeg then acc.dropLast
  else acc ++ [seg]

/-- Node `path.normalize` on an absolute path given as segments. -/
def normalizeSegs (segs : List String) : List String :=
  segs.foldl normStep []

/-- Boolean segment-list prefix test, modelling
`normalizedPath.startsWith(processedDir)` at segment granularity. -/
def leadsList : List String → List String → Bool
  | [], _ => true
  | _ :: _, [] => false
  | a :: as, b :: bs => a == b && leadsList as bs

inductive HlsOutcome
  | badRequest
  | forbidden
  | serveFile (resolved : List String)
deriving Repr, DecidableEq

/-- The `split('/').filter(p => p)` of line 85. -/
def hlsParts (input : String) : List String :=
  (input.split (fun c => c = '/')).filter (fun p => p != "")

/-- Embeds the validation prefix of VideoService.handleHlsRequest
(src/lib/video-service.js lines 78-98): `streamNameWithSubPath` is split
into nonempty parts; any invalid part gives status 400 (`badRequest`); the
joined path is normalized and must retain the processed directory `P` as
prefix, else status 403 (`forbidden`). -/
def handleHlsRequest (P : List String) (input : String) : HlsOutcome :=
  let parts := hlsParts input
  if parts.length = 0 ∨ parts.any (fun p => !validHlsPart p) = true then
    HlsOutcome.badRequest
  else
    let normalized := normalizeSegs (P ++ parts)
    if leadsList P normalized = true then HlsOutcome.serveFile normalized
    else HlsOutcome.forbidden

/-! ## Client registry (src/lib/state-manager.js lines 43-65, 91-119;
src/lib/websocket-server.js lines 139-146, 384-419) -/

structure ClientRecord where
  role : String
  ip : String
  name : String
  token : Option String
  lastDrift : Option ℚ
  lastReportedTime : ℚ
  isPlaying : Bool
  playbackRate : ℚ
  currentSyncInterval : ℚ
  missedHeartbeats : ℕ
deriving Repr, DecidableEq

/-- Embeds StateManager.addClient merging `defaultClientState` with the
`clientInfo` built at websocket-server.js lines 139-146, which carries
exactly the role, ip, name and token fields; every other field keeps its
default, in particular `lastDrift` is the number 0. -/
def mkClientRecord (role ip name token : String) : ClientRecord :=
  { role := role, ip := ip, name := name, token := some token,
    lastDrift := some 0, lastReportedTime := 0, isPlaying := false,
    playbackRate := 1, currentSyncInterval := DEFAULT_SYNC_INTERVAL,
    missedHeartbeats := 0 }

/-- Operations that mutate the set of registered clients: registration
after successful auth (addClient), removal on disconnect (removeClient),
and a validated clientTimeUpdate (websocket-server.js lines 384-409, which
always stores a numeric drift). -/
inductive ClientOp
  | register (role ip name token : String)
  | disconnect (i : ℕ)
  | timeUpdate (i : ℕ) (clientTime drift rate : ℚ) (playing : Bool)

/-- Applies one client-registry operation; `timeUpdate` on a missing index
is a no-op (the source looks the client up first). -/
def applyClientOp (cs : List ClientRecord) : ClientOp → List ClientRecord
  | ClientOp.register role ip name token => cs ++ [mkClientRecord role ip name token]
  | ClientOp.disconnect i => cs.eraseIdx i
  | ClientOp.timeUpdate i clientTime drift rate playing =>
    match cs.get? i with
    | some c =>
      cs.set i { c with lastDrift := some drift, lastReportedTime := clientTime,
                        isPlaying := playing, playbackRate := rate,
                        missedHeartbeats := 0 }
    | none => cs

/-! ## Operator-command machine for the rate-bounds invariant -/

/-- One step of the system as far as the master state is concerned: the
four operator commands as dispatched by websocket-server.js lines 188-216
(play, pause, validated seek, validated changeVideo) and a rate-controller
tick with the drift samples of the connected clients at that instant. -/
inductive TheaterOp
  | playCmd (now : ℚ)
  | pauseCmd (now : ℚ)
  | seekCmd (t : ℚ) (now : ℚ)
  | changeVideoCmd (v : String) (now : ℚ)
  | rateTick (drifts : List (Option ℚ)) (now : ℚ)

def applyOp (s : MasterState) : TheaterOp → MasterState
  | TheaterOp.playCmd now =>
    (setMasterState s { currentVideo := none, isPlaying := some true, seekTime := none } now).state
  | TheaterOp.pauseCmd now =>
    (setMasterState s { currentVideo := none, isPlaying := some false, seekTime := none } now).state
  | TheaterOp.seekCmd t now =>
    (setMasterState s { currentVideo := none, isPlaying := none, seekTime := some t } now).state
  | TheaterOp.changeVideoCmd v now =>
    (setMasterState s { currentVideo := some v, isPlaying := none, seekTime := none } now).state
  | TheaterOp.rateTick drifts now => (adjustPlaybackRate s drifts now).1

/-- The master state after a sequence of operations from the initial
state. -/
def runOps (startWall : ℚ) (ops : List TheaterOp) : MasterState :=
  ops.foldl applyOp (initialMasterState startWall)

/-! ## Rate-bound invariant (claim C3) -/

/-- The playback-rate invariant: `rate ∈ [MIN_PLAYBACK_RATE, MAX_PLAYBACK_RATE]`. -/
def rateWithin (s : MasterState) : Prop :=
  MIN_PLAYBACK_RATE ≤ s.playbackRate ∧ s.playbackRate ≤ MAX_PLAYBACK_RATE

lemma smCatchUp_playbackRate (s : MasterState) (ns : NewStateMsg) (now : ℚ) :
    (smCatchUp s ns now).state.playbackRate = s.playbackRate := by
  unfold smCatchUp
  dsimp only
  split_ifs <;> rfl

lemma smVideoChange_playbackRate (s : MasterState) (ns : NewStateMsg) (now : ℚ) :
    (smVideoChange s ns now).state.playbackRate = s.playbackRate ∨
    (smVideoChange s ns now).state.playbackRate = MAX_PLAYBACK_RATE := by
  unfold smVideoChange
  cases ns.currentVideo with
  | none => exact Or.inl rfl
  | some v =>
    dsimp only
    split_ifs
    · exact Or.inr rfl
    · exact Or.inl rfl

lemma smPlayingChange_playbackRate (s : MasterState) (ns : NewStateMsg) (now : ℚ) :
    (smPlayingChange s ns now).state.playbackRate = s.playbackRate ∨
    (smPlayingChange s ns now).state.playbackRate = MAX_PLAYBACK_RATE := by
  unfold smPlayingChange
  cases ns.isPlaying with
  | none => exact Or.inl rfl
  | some p =>
    dsimp only
    split_ifs
    · exact Or.inl rfl
    · exact Or.inl rfl
    · exact Or.inr rfl

lemma smSeek_playbackRate (s : MasterState) (ns : NewStateMsg) (now : ℚ) :
    (smSeek s ns now).state.playbackRate = s.playbackRate := by
  unfold smSeek
  cases ns.seekTime <;> rfl

lemma setMasterState_playbackRate (s : MasterState) (ns : NewStateMsg) (now : ℚ) :
    (setMasterState s ns now).state.playbackRate = s.playbackRate ∨
    (setMasterState s ns now).state.playbackRate = MAX_PLAYBACK_RATE := by
  unfold setMasterState
  dsimp only
  rw [smSeek_playbackRate]
  rcases smPlayingChange_playbackRate (smVideoChange (smCatchUp s ns now).state ns now).state ns now with h3 | h3
  · rw [h3]
    rcases smVideoChange_playbackRate (smCatchUp s ns now).state ns now with h2 | h2
    · rw [h2, smCatchUp_playbackRate]
      exact Or.inl rfl
    · rw [h2]
      exact Or.inr rfl
  · rw [h3]
    exact Or.inr rfl

lemma rateWithin_setMasterState (s : MasterState) (ns : NewStateMsg) (now : ℚ)
    (h : rateWithin s) : rateWithin (setMasterState s ns now).state := by
  rcases setMasterState_playbackRate s ns now with he | he
  · exact ⟨he ▸ h.1, he ▸ h.2⟩
  · rw [rateWithin, he]
    norm_num [MIN_PLAYBACK_RATE, MAX_PLAYBACK_RATE]

lemma rateWithin_adjustPlaybackRate (s : MasterState) (drifts : List (Option ℚ)) (now : ℚ)
    (h : rateWithin s) : rateWithin (adjustPlaybackRate s drifts now).1 := by
  obtain ⟨hlo, hhi⟩ := h
  rw [MIN_PLAYBACK_RATE] at hlo
  rw [MAX_PLAYBACK_RATE] at hhi
  unfold adjustPlaybackRate
  dsimp only
  split_ifs with h1 h2 h3 h4 h5 <;>
    simp only [rateWithin, MIN_PLAYBACK_RATE, MAX_PLAYBACK_RATE, PLAYBACK_RATE_ADJUST_STEP]
  · exact ⟨hlo, hhi⟩
  · norm_num
  · exact ⟨hlo, hhi⟩
  · exact ⟨le_max_left _ _, max_le (by norm_num) (by linarith)⟩
  · exact ⟨le_min (by norm_num) (by linarith), min_le_left _ _⟩
  · exact ⟨hlo, hhi⟩

lemma rateWithin_applyOp (s : MasterState) (op : TheaterOp) (h : rateWithin s) :
    rateWithin (applyOp s op) := by
  cases op with
  | playCmd now => exact rateWithin_setMasterState s _ now h
  | pauseCmd now => exact rateWithin_setMasterState s _ now h
  | seekCmd t now => exact rateWithin_setMasterState s _ now h
  | changeVideoCmd v now => exact rateWithin_setMasterState s _ now h
  | rateTick drifts now => exact rateWithin_adjustPlaybackRate s drifts now h

lemma rateWithin_foldl : ∀ (ops : List TheaterOp) (s : MasterState),
    rateWithin s → rateWithin (ops.foldl applyOp s)
  | [], _, h => h
  | op :: ops, s, h => rateWithin_foldl ops (applyOp s op) (rateWithin_applyOp s op h)

/-- C3: for every sequence of operator commands and rate-controller ticks
(with arbitrary client drift samples) applied to the initial master state,
the playback rate stays inside [0.9, 1.0]: the controller clamps its
decrease at MIN_PLAYBACK_RATE = 0.9 and its increase at
MAX_PLAYBACK_RATE = 1.0, and pause and changeVideo reset the rate to
1.0. -/
theorem C3_rate_always_in_bounds (startWall : ℚ) (ops : List TheaterOp) :
    9/10 ≤ (runOps startWall ops).playbackRate ∧ (runOps startWall ops).playbackRate ≤ 1 := by
  have h0 : rateWithin (initialMasterState startWall) := by
    constructor <;> norm_num [initialMasterState, MIN_PLAYBACK_RATE, MAX_PLAYBACK_RATE]
  have h := rateWithin_foldl ops (initialMasterState startWall) h0
  rw [rateWithin, MIN_PLAYBACK_RATE, MAX_PLAYBACK_RATE] at h
  exact h

/-! ## Claim C2: anchor rewrite order in the rate controller -/

def introVid : String := "hls:intro"

def c2PreState : MasterState :=
  { currentVideo := some introVid
    currentTime := 10
    isPlaying := true
    lastUpdateTime := 0
    playbackRate := 1 }

set_option maxRecDepth 8000 in
/-- C2 counterexample: a rate-changing tick at now = 1000 ms with one
client whose drift sample is -2 s.  The tick changes the rate (to 0.99),
but the effective time is NOT preserved across the change: before the tick
it is 11, after the tick it is 10.99, because the source assigns the new
rate first and only then rewrites currentTime from getEffectiveTime(),
which therefore already reads the new rate. -/
theorem C2_counterexample :
    (adjustPlaybackRate c2PreState [some (-2)] 1000).2 = true ∧
    (adjustPlaybackRate c2PreState [some (-2)] 1000).1.playbackRate ≠ c2PreState.playbackRate ∧
    getEffectiveTime c2PreState 1000 = 11 ∧
    getEffectiveTime (adjustPlaybackRate c2PreState [some (-2)] 1000).1 1000 = 1099/100 ∧
    getEffectiveTime (adjustPlaybackRate c2PreState [some (-2)] 1000).1 1000 ≠
      getEffectiveTime c2PreState 1000 := by
  with_unfolding_all decide

/-- C2 (amended): on every tick that changes the rate, the controller
rewrites anchorWall := now and broadcasts, but the anchor-time rewrite
happens after the new rate is applied: on the main branch anchorTime is
rewritten to the effective time computed under the NEW rate (so the
effective time shifts by (now - anchorWall)/1000 * (newRate - oldRate)
instead of staying continuous), and on the reset branch taken when no
client has a drift sample, anchorTime is left unchanged entirely while
anchorWall := now, discarding the time accrued since anchorWall. -/
theorem C2_amended_anchor_rewrite (s : MasterState) (drifts : List (Option ℚ)) (now : ℚ)
    (h : (adjustPlaybackRate s drifts now).2 = true) :
    (adjustPlaybackRate s drifts now).1.lastUpdateTime = now ∧
    (countSome drifts = 0 →
      (adjustPlaybackRate s drifts now).1.currentTime = s.currentTime ∧
      (adjustPlaybackRate s drifts now).1.playbackRate = MAX_PLAYBACK_RATE) ∧
    (¬ countSome drifts = 0 →
      (adjustPlaybackRate s drifts now).1.currentTime =
        max 0 (s.currentTime + (now - s.lastUpdateTime) / 1000 *
          (adjustPlaybackRate s drifts now).1.playbackRate)) := by
  unfold adjustPlaybackRate at h ⊢
  dsimp only at h ⊢
  split_ifs at h ⊢ with h1 h2 h3 h4 h5
  · refine ⟨rfl, fun _ => ⟨rfl, rfl⟩, fun hn => absurd h2 hn⟩
  · have hplay : s.isPlaying = true := by
      rcases not_or.mp h1 with ⟨hp, _⟩
      exact not_not.mp hp
    refine ⟨rfl, fun h0 => absurd h0 h2, fun _ => ?_⟩
    dsimp only
    simp only [getEffectiveTime, hplay]
    norm_num
  · have hplay : s.isPlaying = true := by
      rcases not_or.mp h1 with ⟨hp, _⟩
      exact not_not.mp hp
    refine ⟨rfl, fun h0 => absurd h0 h2, fun _ => ?_⟩
    dsimp only
    simp only [getEffectiveTime, hplay]
    norm_num

def c2wState : MasterState :=
  { currentVideo := some introVid
    currentTime := 20
    isPlaying := true
    lastUpdateTime := 100
    playbackRate := 95/100 }

/-- Witness for C2 (amended) at a concrete rate-changing tick. -/
theorem C2_witness :
    (adjustPlaybackRate c2wState [some (-3), some 0] 600).2 = true ∧
    ((adjustPlaybackRate c2wState [some (-3), some 0] 600).1.lastUpdateTime = 600 ∧
     (countSome [some (-3), some 0] = 0 →
       (adjustPlaybackRate c2wState [some (-3), some 0] 600).1.currentTime = c2wState.currentTime ∧
       (adjustPlaybackRate c2wState [some (-3), some 0] 600).1.playbackRate = MAX_PLAYBACK_RATE) ∧
     (¬ countSome [some (-3), some 0] = 0 →
       (adjustPlaybackRate c2wState [some (-3), some 0] 600).1.currentTime =
         max 0 (c2wState.currentTime + (600 - c2wState.lastUpdateTime) / 1000 *
           (adjustPlaybackRate c2wState [some (-3), some 0] 600).1.playbackRate))) :=
  ⟨by with_unfolding_all decide,
   C2_amended_anchor_rewrite c2wState [some (-3), some 0] 600 (by with_unfolding_all decide)⟩

/-! ## Claim C4: HLS path confinement -/

lemma foldl_normStep_no_dotdot : ∀ (l : List String) (acc : List String),
    (∀ p ∈ l, p ≠ dotDotSeg) →
    l.foldl normStep acc = acc ++ l.filter (fun p => p != dotSeg)
  | [], acc, _ => by simp
  | p :: l, acc, h => by
    have hp : p ≠ dotDotSeg := h p (List.mem_cons_self p l)
    have hrest : ∀ q ∈ l, q ≠ dotDotSeg := fun q hq => h q (List.mem_cons_of_mem p hq)
    by_cases hd : p = dotSeg
    · rw [List.foldl_cons]
      rw [show normStep acc p = acc from by rw [normStep, if_pos hd]]
      rw [foldl_normStep_no_dotdot l acc hrest]
      simp [List.filter_cons, hd]
    · rw [List.foldl_cons]
      rw [show normStep acc p = acc ++ [p] from by rw [normStep, if_neg hd, if_neg hp]]
      rw [foldl_normStep_no_dotdot l (acc ++ [p]) hrest]
      simp [List.filter_cons, hd]

lemma normalizeSegs_clean_append (P parts : List String)
    (hP : ∀ s ∈ P, s ≠ dotSeg ∧ s ≠ dotDotSeg)
    (hparts : ∀ p ∈ parts, p ≠ dotDotSeg) :
    normalizeSegs (P ++ parts) = P ++ parts.filter (fun p => p != dotSeg) := by
  unfold normalizeSegs
  rw [List.foldl_append]
  have hPfix : P.foldl normStep [] = P := by
    rw [foldl_normStep_no_dotdot P [] (fun s hs => (hP s hs).2)]
    rw [List.nil_append]
    apply List.filter_eq_self.mpr
    intro a ha
    simpa using (hP a ha).1
  rw [hPfix, foldl_normStep_no_dotdot parts P hparts]

lemma leadsList_append : ∀ (P r : List String), leadsList P (P ++ r) = true
  | [], _ => rfl
  | a :: P, r => by
    rw [List.cons_append, leadsList]
    simp [leadsList_append P r]

lemma validHlsPart_ne_dotdot (p : String) (h : validHlsPart p = true) : p ≠ dotDotSeg := by
  intro he
  rw [he] at h
  exact absurd h (by with_unfolding_all decide)

/-- C4: for every processed-directory root P (a normalized absolute path,
so no `.` or `..` segments) and every HLS request path: (a) if the split
path is empty or any component fails the `[A-Za-z0-9_.-]+` test or
contains `..`, the request is rejected with status 400 (badRequest); (b)
otherwise the request is served and the resolved path is exactly P
followed by the (dot-free) components, so the 403 guard never fires on a
validated path; (c) whenever file bytes are served, the resolved path has
P as prefix — the serve operation never reaches outside the processed
directory. -/
theorem C4_hls_path_confinement (P : List String) (input : String)
    (hP : ∀ s ∈ P, s ≠ dotSeg ∧ s ≠ dotDotSeg) :
    (((hlsParts input).length = 0 ∨ ∃ p ∈ hlsParts input, ¬ validHlsPart p = true) →
      handleHlsRequest P input = HlsOutcome.badRequest) ∧
    ((hlsParts input).length ≠ 0 ∧ (∀ p ∈ hlsParts input, validHlsPart p = true) →
      handleHlsRequest P input =
        HlsOutcome.serveFile (P ++ (hlsParts input).filter (fun p => p != dotSeg))) ∧
    (∀ q, handleHlsRequest P input = HlsOutcome.serveFile q → leadsList P q = true) := by
  have hcond : ((hlsParts input).length = 0 ∨
      (hlsParts input).any (fun p => !validHlsPart p) = true) ↔
      ((hlsParts input).length = 0 ∨ ∃ p ∈ hlsParts input, ¬ validHlsPart p = true) := by
    simp [List.any_eq_true]
  refine ⟨?_, ?_, ?_⟩
  · intro hbad
    unfold handleHlsRequest
    rw [if_pos (hcond.mpr hbad)]
  · rintro ⟨hne, hall⟩
    have hnot : ¬ ((hlsParts input).length = 0 ∨
        (hlsParts input).any (fun p => !validHlsPart p) = true) := by
      rw [hcond]
      push_neg
      exact ⟨hne, hall⟩
    unfold handleHlsRequest
    rw [if_neg hnot]
    have hnorm : normalizeSegs (P ++ hlsParts input) =
        P ++ (hlsParts input).filter (fun p => p != dotSeg) :=
      normalizeSegs_clean_append P (hlsParts input) hP
        (fun p hp => validHlsPart_ne_dotdot p (hall p hp))
    rw [hnorm, if_pos (leadsList_append P _)]
  · intro q hq
    unfold handleHlsRequest at hq
    by_cases hc : ((hlsParts input).length = 0 ∨
        (hlsParts input).any (fun p => !validHlsPart p) = true)
    · rw [if_pos hc] at hq
      exact absurd hq (by simp)
    · rw [if_neg hc] at hq
      by_cases hl : leadsList P (normalizeSegs (P ++ hlsParts input)) = true
      · rw [if_pos hl] at hq
        rw [HlsOutcome.serveFile.injEq] at hq
        rw [← hq]
        exact hl
      · rw [if_neg hl] at hq
        exact absurd hq (by simp)

def segVideos : String := "videos"
def segProcessed : String := "processed"
def hlsWitnessInput : String := "intro/720p/seg0001.ts"

/-- Witness for C4 at a concrete root and a concrete valid request. -/
theorem C4_witness :
    (∀ s ∈ [segVideos, segProcessed], s ≠ dotSeg ∧ s ≠ dotDotSeg) ∧
    ((((hlsParts hlsWitnessInput).length = 0 ∨
        ∃ p ∈ hlsParts hlsWitnessInput, ¬ validHlsPart p = true) →
      handleHlsRequest [segVideos, segProcessed] hlsWitnessInput = HlsOutcome.badRequest) ∧
     ((hlsParts hlsWitnessInput).length ≠ 0 ∧
        (∀ p ∈ hlsParts hlsWitnessInput, validHlsPart p = true) →
      handleHlsRequest [segVideos, segProcessed] hlsWitnessInput =
        HlsOutcome.serveFile ([segVideos, segProcessed] ++
          (hlsParts hlsWitnessInput).filter (fun p => p != dotSeg))) ∧
     (∀ q, handleHlsRequest [segVideos, segProcessed] hlsWitnessInput =
        HlsOutcome.serveFile q → leadsList [segVideos, segProcessed] q = true)) :=
  ⟨by with_unfolding_all decide,
   C4_hls_path_confinement [segVideos, segProcessed] hlsWitnessInput
     (by with_unfolding_all decide)⟩

/-! ## Claims C5 and C6: authentication precedence and session validity -/

lemma validateSession_snd_subset (sessions : List (String × SessionData))
    (token : String) (now : ℚ) :
    ∀ p ∈ (validateSession sessions token now).2, p ∈ sessions := by
  intro p hp
  unfold validateSession at hp
  split_ifs at hp
  · exact hp
  · revert hp
    cases sessions.lookup token with
    | none => exact id
    | some sess =>
      dsimp only
      split_ifs
      · exact fun hp => List.mem_of_mem_filter hp
      · exact id

def pwAdminC : String := "admin-secret"
def pwViewerC : String := "viewer-secret"

def c5Cfg : AuthConfig :=
  { adminPassword := pwAdminC, viewerPassword := pwViewerC, sessionExpiry := 604800000 }

def badTok : String := "deadbeef"
def freshTok : String := "feedface"
def emptyTok : String := ""

/-- C5 counterexample.  First input: an auth frame carrying the unknown
token "deadbeef" AND the correct admin password.  The server replies
auth_fail but does NOT tear the connection down (`terminated = false`;
the source returns without calling terminate, leaving teardown to the
5-second auth timeout).  Second input: a frame carrying the empty-string
token and the correct admin password; the empty token is falsy in
JavaScript, so the code falls through to password auth, validates the
password, creates a session and registers the client — even though the
frame carried an (invalid) token field. -/
theorem C5_counterexample :
    (handleAuthMessage c5Cfg [] false ⟨some badTok, some pwAdminC, none⟩ 0 freshTok).replies =
      [ServerReply.authFail authFailToken] ∧
    (handleAuthMessage c5Cfg [] false ⟨some badTok, some pwAdminC, none⟩ 0 freshTok).terminated =
      false ∧
    (handleAuthMessage c5Cfg [] false ⟨some emptyTok, some pwAdminC, none⟩ 0 freshTok).replies =
      [ServerReply.authSuccess adminRole anonymousName freshTok] ∧
    (handleAuthMessage c5Cfg [] false ⟨some emptyTok, some pwAdminC, none⟩ 0 freshTok).clientAdded =
      some (adminRole, anonymousName, freshTok) := by
  with_unfolding_all decide

/-- C5 (amended): for every auth frame that carries a NON-EMPTY token and
a password, where the token is invalid, the server replies auth_fail and
stops: the password is never validated (the result does not depend on the
password field), no session is created (the resulting store is the
validateSession output, a subset of the old store) and no client is
registered; however the connection is NOT torn down by this handler —
teardown is left to the auth timeout.  (An empty-string token is falsy in
JavaScript and falls through to password authentication instead.) -/
theorem C5_amended_token_short_circuit (cfg : AuthConfig)
    (sessions : List (String × SessionData)) (t : String) (pw nm : Option String)
    (now : ℚ) (freshToken : String)
    (ht : t ≠ "") (hinv : (validateSession sessions t now).1 = none) :
    handleAuthMessage cfg sessions false ⟨some t, pw, nm⟩ now freshToken =
      { replies := [ServerReply.authFail authFailToken], terminated := false,
        sessions := (validateSession sessions t now).2, clientAdded := none } ∧
    ∀ p ∈ (handleAuthMessage cfg sessions false ⟨some t, pw, nm⟩ now freshToken).sessions,
      p ∈ sessions := by
  have htruthy : jsTruthyStr (some t) = true := by
    simp [jsTruthyStr, ht]
  have hres : handleAuthMessage cfg sessions false ⟨some t, pw, nm⟩ now freshToken =
      { replies := [ServerReply.authFail authFailToken], terminated := false,
        sessions := (validateSession sessions t now).2, clientAdded := none } := by
    unfold handleAuthMessage
    rw [if_neg Bool.false_ne_true]
    dsimp only
    rw [if_pos htruthy]
    dsimp only [Option.getD]
    rw [hinv]
  refine ⟨hres, ?_⟩
  rw [hres]
  exact validateSession_snd_subset sessions t now

def expiredTok : String := "0ldt0ken"

def c5wSession : SessionData := { role := viewerRole, name := anonymousName, expiry := 10 }

/-- Witness for C5 (amended): a store holding one session expired at 10,
validated at now = 20 with its own (expired, hence invalid) token. -/
theorem C5_witness :
    (expiredTok ≠ "") ∧
    ((validateSession [(expiredTok, c5wSession)] expiredTok 20).1 = none) ∧
    (handleAuthMessage c5Cfg [(expiredTok, c5wSession)] false
        ⟨some expiredTok, some pwAdminC, none⟩ 20 freshTok =
      { replies := [ServerReply.authFail authFailToken], terminated := false,
        sessions := (validateSession [(expiredTok, c5wSession)] expiredTok 20).2,
        clientAdded := none } ∧
     ∀ p ∈ (handleAuthMessage c5Cfg [(expiredTok, c5wSession)] false
        ⟨some expiredTok, some pwAdminC, none⟩ 20 freshTok).sessions,
       p ∈ [(expiredTok, c5wSession)]) :=
  ⟨by decide,
   by with_unfolding_all decide,
   C5_amended_token_short_circuit c5Cfg [(expiredTok, c5wSession)] expiredTok
     (some pwAdminC) none 20 freshTok (by decide) (by with_unfolding_all decide)⟩

def c6Tok : String := "cafebabe"

def c6Sess : SessionData := { role := adminRole, name := anonymousName, expiry := 100 }

/-- C6 counterexample: at the boundary now = expiresAt = 100 the source
test `session.expiry < now` is false, so validateSession RETURNS the
session, contradicting the claim that it returns none whenever
now >= expiresAt. -/
theorem C6_counterexample :
    c6Sess.expiry = 100 ∧
    (validateSession [(c6Tok, c6Sess)] c6Tok 100).1 = some c6Sess := by
  with_unfolding_all decide

/-- C6 (amended): validateSession returns the session iff the token is
non-empty (a falsy token is rejected up front), is present in the store,
and now ≤ expiresAt; equivalently it returns none exactly when the token
is empty, absent, or now > expiresAt.  At the boundary now = expiresAt the
session is still returned. -/
theorem C6_amended_session_validity (sessions : List (String × SessionData))
    (token : String) (now : ℚ) (sess : SessionData) :
    (validateSession sessions token now).1 = some sess ↔
      (token ≠ "" ∧ sessions.lookup token = some sess ∧ now ≤ sess.expiry) := by
  unfold validateSession
  split_ifs with h0
  · simp [h0]
  · cases hl : sessions.lookup token with
    | none => simp [h0]
    | some s0 =>
      dsimp only
      split_ifs with hexp
      · simp only [Option.some.injEq]
        constructor
        · intro hfalse
          exact absurd hfalse (by simp)
        · rintro ⟨-, hs, hle⟩
          rw [← hs] at hle
          exact absurd hexp (not_lt.mpr hle)
      · simp only [Option.some.injEq]
        constructor
        · intro he
          exact ⟨h0, by rw [he], by rw [← he]; exact not_lt.mp hexp⟩
        · rintro ⟨-, hs, -⟩
          exact hs

/-! ## Claim C7: changeVideo transition -/

def c7State : MasterState :=
  { currentVideo := some introVid
    currentTime := 7
    isPlaying := true
    lastUpdateTime := 0
    playbackRate := 1 }

def c7Msg : NewStateMsg :=
  { currentVideo := some introVid, isPlaying := none, seekTime := none }

/-- C7 counterexample: changeVideo with a VALID stream reference equal to
the current video.  The claim says the transition applies with no
precondition on v differing from the current video, so the result should
have anchorTime = 0, isPlaying = false and a broadcast; but the source
guards the branch with `newState.currentVideo !== masterState.currentVideo`,
so the call leaves the playing state completely unchanged, issues no
broadcast and does not stop the rate loop. -/
theorem C7_counterexample :
    isValidVideoFilename (JsVal.str introVid) = true ∧
    setMasterState c7State c7Msg 1000 =
      { state := c7State, stateChanged := false, broadcast := false,
        stoppedRateLoop := false, startedRateLoop := false } := by
  with_unfolding_all decide

lemma smCatchUp_currentVideo (s : MasterState) (ns : NewStateMsg) (now : ℚ) :
    (smCatchUp s ns now).state.currentVideo = s.currentVideo := by
  unfold smCatchUp
  dsimp only
  split_ifs <;> rfl

lemma jsStrictNeVideo_of_ne (v : String) (cur : Option String)
    (h : some v ≠ cur) : jsStrictNeVideo (some v) cur = true := by
  cases cur with
  | none => rfl
  | some w =>
    have : v ≠ w := fun he => h (by rw [he])
    simp [jsStrictNeVideo, this]

lemma setMasterState_changeVideo (s : MasterState) (v : String) (now : ℚ)
    (hne : some v ≠ s.currentVideo) :
    setMasterState s ⟨some v, none, none⟩ now =
      { state := { currentVideo := some v, currentTime := 0, isPlaying := false,
                   lastUpdateTime := now, playbackRate := MAX_PLAYBACK_RATE },
        stateChanged := true, broadcast := true,
        stoppedRateLoop := true, startedRateLoop := false } := by
  unfold setMasterState
  dsimp only
  have hvid : jsStrictNeVideo (some v)
      (smCatchUp s ⟨some v, none, none⟩ now).state.currentVideo = true := by
    rw [smCatchUp_currentVideo]
    exact jsStrictNeVideo_of_ne v s.currentVideo hne
  rw [show smVideoChange (smCatchUp s ⟨some v, none, none⟩ now).state ⟨some v, none, none⟩ now =
      { state := { (smCatchUp s ⟨some v, none, none⟩ now).state with
                     currentVideo := some v, currentTime := 0, isPlaying := false,
                     playbackRate := MAX_PLAYBACK_RATE, lastUpdateTime := now },
        changed := true, started := false, stopped := true } from by
    unfold smVideoChange
    dsimp only
    rw [if_pos hvid]]
  rw [show ∀ s2 : MasterState, smPlayingChange s2 ⟨some v, none, none⟩ now =
      { state := s2, changed := false, started := false, stopped := false } from
    fun s2 => rfl]
  rw [show ∀ s3 : MasterState, smSeek s3 ⟨some v, none, none⟩ now =
      { state := s3, changed := false, started := false, stopped := false } from
    fun s3 => rfl]
  simp

/-- C7 (amended): for every changeVideo(v) where v is a valid
hls:streamName reference AND differs from the current video, the
resulting master state has currentVideo := v, anchorTime := 0,
isPlaying := false and rate := 1.0, a broadcast is issued, the
rate-control loop is stopped (and not restarted), and no error reply is
sent.  (The difference precondition is required: see the
counterexample.) -/
theorem C7_amended_change_video (s : MasterState) (v : String) (now : ℚ)
    (hvalid : isValidVideoFilename (JsVal.str v) = true)
    (hne : some v ≠ s.currentVideo) :
    handleChangeVideoMsg s (JsVal.str v) now =
      { res := { state := { currentVideo := some v, currentTime := 0, isPlaying := false,
                            lastUpdateTime := now, playbackRate := MAX_PLAYBACK_RATE },
                 stateChanged := true, broadcast := true,
                 stoppedRateLoop := true, startedRateLoop := false },
        replies := [] } := by
  unfold handleChangeVideoMsg
  rw [if_pos hvalid]
  dsimp only
  rw [setMasterState_changeVideo s v now hne]

def alphaVid : String := "hls:alpha"

/-- Witness for C7 (amended) from the freshly constructed state (whose
currentVideo is null) to a valid stream. -/
theorem C7_witness :
    (isValidVideoFilename (JsVal.str alphaVid) = true) ∧
    (some alphaVid ≠ (initialMasterState 0).currentVideo) ∧
    handleChangeVideoMsg (initialMasterState 0) (JsVal.str alphaVid) 500 =
      { res := { state := { currentVideo := some alphaVid, currentTime := 0,
                            isPlaying := false, lastUpdateTime := 500,
                            playbackRate := MAX_PLAYBACK_RATE },
                 stateChanged := true, broadcast := true,
                 stoppedRateLoop := true, startedRateLoop := false },
        replies := [] } :=
  ⟨by with_unfolding_all decide,
   by with_unfolding_all decide,
   C7_amended_change_video (initialMasterState 0) alphaVid 500
     (by with_unfolding_all decide) (by with_unfolding_all decide)⟩

/-! ## Claim C8: rejection of invalid seek and changeVideo -/

def fiveStr : String := "5"

/-- C8 counterexample: the operator seek message with time equal to the
JSON STRING "5" — not a number.  The claim says the server replies with an
error frame and leaves the master state unchanged, but the source runs the
value through parseFloat, which coerces the numeric string to 5; the seek
is accepted: no error reply, currentTime jumps to 5 and a broadcast is
issued. -/
theorem C8_counterexample :
    (handleSeekMsg (initialMasterState 0) (JsVal.str fiveStr) 0).replies = [] ∧
    (handleSeekMsg (initialMasterState 0) (JsVal.str fiveStr) 0).res.state.currentTime = 5 ∧
    (handleSeekMsg (initialMasterState 0) (JsVal.str fiveStr) 0).res.broadcast = true := by
  with_unfolding_all decide

/-- C8 (amended): for every seek(t) where parseFloat(t) is NaN (for
example t null, boolean, absent or a non-numeric string) or
parseFloat(t) < 0, the server replies an error frame and the master state
is unchanged; and for every changeVideo(v) where v is not a valid
hls:streamName reference (for example the string "hls:../etc"), the server
replies an error frame and the master state is unchanged.  (A numeric
STRING such as "5" is coerced by parseFloat and accepted; see the
counterexample.) -/
theorem C8_amended_validation (s : MasterState) (tv vv : JsVal) (now : ℚ) :
    ((jsParseFloat tv = none ∨ ∃ q, jsParseFloat tv = some q ∧ q < 0) →
      handleSeekMsg s tv now =
        { res := noStateChange s, replies := [ServerReply.errorMsg errInvalidSeek] }) ∧
    (isValidVideoFilename vv = false →
      handleChangeVideoMsg s vv now =
        { res := noStateChange s, replies := [ServerReply.errorMsg errInvalidVideo] }) := by
  constructor
  · intro h
    unfold handleSeekMsg
    rcases h with hnan | ⟨q, hq, hneg⟩
    · rw [hnan]
    · rw [hq]
      dsimp only
      rw [if_neg (not_le.mpr hneg)]
  · intro h
    unfold handleChangeVideoMsg
    rw [if_neg (by rw [h]; exact Bool.false_ne_true)]

def travVid : String := "hls:../etc"

/-- Witness for C8 (amended): seek with a null time and changeVideo with
the path-traversal reference of scenario S4. -/
theorem C8_witness :
    (jsParseFloat JsVal.nullVal = none) ∧
    (isValidVideoFilename (JsVal.str travVid) = false) ∧
    handleSeekMsg (initialMasterState 3) JsVal.nullVal 9 =
      { res := noStateChange (initialMasterState 3),
        replies := [ServerReply.errorMsg errInvalidSeek] } ∧
    handleChangeVideoMsg (initialMasterState 3) (JsVal.str travVid) 9 =
      { res := noStateChange (initialMasterState 3),
        replies := [ServerReply.errorMsg errInvalidVideo] } :=
  ⟨rfl,
   by with_unfolding_all decide,
   (C8_amended_validation (initialMasterState 3) JsVal.nullVal (JsVal.str travVid) 9).1
     (Or.inl rfl),
   (C8_amended_validation (initialMasterState 3) JsVal.nullVal (JsVal.str travVid) 9).2
     (by with_unfolding_all decide)⟩

/-! ## Claim C9: per-client sync interval is constant with shipped defaults -/

/-- C9: with the shipped constants MIN_SYNC_INTERVAL = MAX_SYNC_INTERVAL
= 1000 ms, for every master playing flag, every drift sample and every
interval inside [MIN_SYNC_INTERVAL, MAX_SYNC_INTERVAL], the adaptation
rule is a no-op: it returns the interval unchanged (hence the interval
never leaves the range) and reports no change. -/
theorem C9_sync_interval_noop (playing : Bool) (drift : Option ℚ) (cur : ℚ)
    (h1 : MIN_SYNC_INTERVAL ≤ cur) (h2 : cur ≤ MAX_SYNC_INTERVAL) :
    adjustClientSyncInterval playing drift cur = (cur, false) ∧
    MIN_SYNC_INTERVAL ≤ (adjustClientSyncInterval playing drift cur).1 ∧
    (adjustClientSyncInterval playing drift cur).1 ≤ MAX_SYNC_INTERVAL := by
  rw [MIN_SYNC_INTERVAL] at h1
  rw [MAX_SYNC_INTERVAL] at h2
  have hc : cur = 1000 := le_antisymm h2 h1
  subst hc
  have heq : adjustClientSyncInterval playing drift 1000 = (1000, false) := by
    unfold adjustClientSyncInterval
    dsimp only
    split_ifs <;> simp_all [MIN_SYNC_INTERVAL, MAX_SYNC_INTERVAL]
  refine ⟨heq, ?_, ?_⟩ <;> simp [heq, MIN_SYNC_INTERVAL, MAX_SYNC_INTERVAL]

/-- Witness for C9 at a concrete playing client with drift 2 s. -/
theorem C9_witness :
    (MIN_SYNC_INTERVAL ≤ (1000 : ℚ)) ∧ ((1000 : ℚ) ≤ MAX_SYNC_INTERVAL) ∧
    (adjustClientSyncInterval true (some 2) 1000 = (1000, false) ∧
     MIN_SYNC_INTERVAL ≤ (adjustClientSyncInterval true (some 2) 1000).1 ∧
     (adjustClientSyncInterval true (some 2) 1000).1 ≤ MAX_SYNC_INTERVAL) :=
  ⟨by norm_num [MIN_SYNC_INTERVAL],
   by norm_num [MAX_SYNC_INTERVAL],
   C9_sync_interval_noop true (some 2) 1000
     (by norm_num [MIN_SYNC_INTERVAL]) (by norm_num [MAX_SYNC_INTERVAL])⟩

/-! ## Claim C10: every registered client has a numeric drift sample -/

lemma countSome_eq_length : ∀ (l : List (Option ℚ)), (∀ d ∈ l, d ≠ none) →
    countSome l = l.length
  | [], _ => rfl
  | none :: l, h => absurd rfl (h none (List.mem_cons_self none l))
  | some q :: l, h => by
    rw [countSome, List.length_cons,
      countSome_eq_length l (fun d hd => h d (List.mem_cons_of_mem _ hd))]

lemma applyClientOp_preserves_drift (cs : List ClientRecord) (op : ClientOp)
    (h : ∀ c ∈ cs, c.lastDrift ≠ none) :
    ∀ c ∈ applyClientOp cs op, c.lastDrift ≠ none := by
  intro c hc
  cases op with
  | register role ip name token =>
    rw [applyClientOp] at hc
    rcases List.mem_append.mp hc with hold | hnew
    · exact h c hold
    · rw [List.mem_singleton] at hnew
      rw [hnew]
      simp [mkClientRecord]
  | disconnect i =>
    rw [applyClientOp] at hc
    exact h c ((cs.eraseIdx_sublist i).subset hc)
  | timeUpdate i clientTime drift rate playing =>
    rw [applyClientOp] at hc
    revert hc
    cases cs.get? i with
    | none => exact fun hc => h c hc
    | some c0 =>
      intro hc
      rcases List.mem_or_eq_of_mem_set hc with hold | hnew
      · exact h c hold
      · rw [hnew]
        simp

lemma foldl_clientOps_drift : ∀ (ops : List ClientOp) (cs : List ClientRecord),
    (∀ c ∈ cs, c.lastDrift ≠ none) →
    ∀ c ∈ ops.foldl applyClientOp cs, c.lastDrift ≠ none
  | [], _, h => h
  | op :: ops, cs, h =>
    foldl_clientOps_drift ops (applyClientOp cs op) (applyClientOp_preserves_drift cs op h)

/-- C10: for every sequence of client-registry operations (registration,
disconnection, validated time-reports) starting from the empty registry,
every registered client carries a numeric lastDrift (registration
initializes it to 0 before any time-report arrives); consequently the
rate-controller count N of clients with a drift sample equals the total
number of connected clients, and whenever at least one client is
connected that count is nonzero — so the N = 0 reset branch of
adjustPlaybackRate is unreachable. -/
theorem C10_drift_always_numeric (ops : List ClientOp) :
    (∀ c ∈ ops.foldl applyClientOp [], c.lastDrift ≠ none) ∧
    countSome ((ops.foldl applyClientOp []).map ClientRecord.lastDrift) =
      (ops.foldl applyClientOp []).length ∧
    (ops.foldl applyClientOp [] ≠ [] →
      countSome ((ops.foldl applyClientOp []).map ClientRecord.lastDrift) ≠ 0) := by
  have hinv : ∀ c ∈ ops.foldl applyClientOp [], c.lastDrift ≠ none :=
    foldl_clientOps_drift ops [] (by intro c hc; exact absurd hc (List.not_mem_nil c))
  have hcount : countSome ((ops.foldl applyClientOp []).map ClientRecord.lastDrift) =
      (ops.foldl applyClientOp []).length := by
    rw [countSome_eq_length]
    · exact List.length_map _ _
    · intro d hd
      rcases List.mem_map.mp hd with ⟨c, hc, hdc⟩
      rw [← hdc]
      exact hinv c hc
  refine ⟨hinv, hcount, fun hne h0 => ?_⟩
  rw [hcount] at h0
  exact hne (List.length_eq_zero.mp h0)

def ipLocal : String := "10.0.0.7"
def viewerName : String := "Bob"
def tokBob : String := "b0bt0ken"

/-- Witness for C10 after one registration. -/
theorem C10_witness :
    ((∀ c ∈ [ClientOp.register viewerRole ipLocal viewerName tokBob].foldl applyClientOp [],
        c.lastDrift ≠ none) ∧
     countSome (([ClientOp.register viewerRole ipLocal viewerName tokBob].foldl
          applyClientOp []).map ClientRecord.lastDrift) =
       ([ClientOp.register viewerRole ipLocal viewerName tokBob].foldl applyClientOp []).length ∧
     ([ClientOp.register viewerRole ipLocal viewerName tokBob].foldl applyClientOp [] ≠ [] →
       countSome (([ClientOp.register viewerRole ipLocal viewerName tokBob].foldl
            applyClientOp []).map ClientRecord.lastDrift) ≠ 0)) ∧
    ([ClientOp.register viewerRole ipLocal viewerName tokBob].foldl applyClientOp [] ≠ [] ∧
     countSome (([ClientOp.register viewerRole ipLocal viewerName tokBob].foldl
          applyClientOp []).map ClientRecord.lastDrift) ≠ 0) :=
  ⟨C10_drift_always_numeric [ClientOp.register viewerRole ipLocal viewerName tokBob],
   by with_unfolding_all decide,
   (C10_drift_always_numeric [ClientOp.register viewerRole ipLocal viewerName tokBob]).2.2
     (by with_unfolding_all decide)⟩

end Theater
